import Mathlib

/-!
Verification of the mp3-api MCP server core (ZingMp3 client pipeline).

The development shallowly embeds the TypeScript source:
  * a `JValue` type models loosely-typed JavaScript/JSON values
    (`JValue.null` stands for both JS `null` and `undefined`);
  * the signing helpers, cookie acquisition, request dispatcher and
    response normalizers of `Mp3ApiClient` become Lean functions over
    explicit state and environment parameters;
  * `pickBestStream` from the tool-registration layer is embedded directly.
-/

namespace Mp3Mcp

/-- Model of a JavaScript value as it appears in the client code.
`null` covers both JS `null` and `undefined`; object fields are kept as an
association list in the iteration order of the JS object. -/
inductive JValue where
  | null
  | bool (b : Bool)
  | str (s : String)
  | num (n : Int)
  | arr (xs : List JValue)
  | obj (fields : List (String × JValue))
deriving Repr

/-- JS truthiness of a value (arrays and objects are always truthy). -/
def truthy : JValue → Bool
  | .null => false
  | .bool b => b
  | .str s => s ≠ ""
  | .num n => n ≠ 0
  | .arr _ => true
  | .obj _ => true

/-- JS property access `v?.k`: field lookup on objects, `undefined`
(modelled as `.null`) on everything else or on a missing field. -/
def jGet : JValue → String → JValue
  | .obj fs, k =>
    match fs.lookup k with
    | some v => v
    | none => .null
  | _, _ => .null

/-- JS `a || b`. -/
def jsOrJ (a b : JValue) : JValue := if truthy a then a else b

/-- JS strict comparison of a value against a number literal (`v === n`). -/
def isNum : JValue → Int → Bool
  | .num m, n => m = n
  | _, _ => false

/-- `data && typeof data === 'object' && 'err' in data` (arrays have no
`err` own-property in this protocol, so only objects can match). -/
def hasErrField : JValue → Bool
  | .obj fs => (fs.lookup "err").isSome
  | _ => false

mutual
/-- JS string coercion `String(v)` as used in template literals. -/
def jTemplate : JValue → String
  | .null => "null"
  | .bool b => if b then "true" else "false"
  | .str s => s
  | .num n => toString n
  | .arr xs => jTemplateList xs
  | .obj _ => "[object Object]"

/-- `String(array)`: elements joined with commas. -/
def jTemplateList : List JValue → String
  | [] => ""
  | [x] => jTemplate x
  | x :: y :: xs => jTemplate x ++ "," ++ jTemplateList (y :: xs)
end

/-- `String.trim` over the character list (the built-in iterates over byte
positions, which the kernel cannot evaluate inside proofs). -/
def jsTrim (s : String) : String :=
  String.mk (((s.data.dropWhile Char.isWhitespace).reverse.dropWhile Char.isWhitespace).reverse)

/-- `s.substring(0, n)` over the character list. -/
def strTake (s : String) (n : Nat) : String := String.mk (s.data.take n)

/-- Substring containment over character lists. -/
def listInfix (pat : List Char) : List Char → Bool
  | [] => pat.isPrefixOf []
  | c :: cs => pat.isPrefixOf (c :: cs) || listInfix pat cs

/-- JS `s.includes(sub)`. -/
def strIncludes (s sub : String) : Bool := listInfix sub.data s.data

/-- Assignment / object-spread update `{...ps, k: v}`: an existing key keeps
its position and gets the new value, a new key is appended. -/
def setKey (ps : List (String × String)) (k v : String) : List (String × String) :=
  if (ps.lookup k).isSome then
    ps.map fun p => if p.1 = k then (k, v) else p
  else
    ps ++ [(k, v)]

/-- `value.startsWith('http://') || value.startsWith('https://')`. -/
def isHttpUrl (s : String) : Bool :=
  "http://".data.isPrefixOf s.data || "https://".data.isPrefixOf s.data

/-! ## Signature engine

The client computes signatures with Node `crypto` (`sha256` digest and
`hmac-sha512`).  Those primitives live outside the repository, so the
embedding abstracts them as a context of two string functions; every
definition below is otherwise a literal transcription of `Mp3ApiClient`. -/

/-- The external digest primitives used by `getHash256` / `getHmac512`
(Node `crypto`, not repository code): a sha256 hex digest and an
hmac-sha512 hex digest keyed by its second argument. -/
structure SigCtx where
  sha256 : String → String
  hmac512 : String → String → String

/-- `private readonly VERSION = "1.6.34"`. -/
def VERSION : String := "1.6.34"

/-- `private readonly SECRET_KEY = "2aa2d1c561e809b267f3638c4a307aab"`. -/
def SECRET_KEY : String := "2aa2d1c561e809b267f3638c4a307aab"

/-- `private readonly API_KEY = "88265e23d4284f25963e6eedac8fbfa3"`. -/
def API_KEY : String := "88265e23d4284f25963e6eedac8fbfa3"

/-- `getHash256(str)`. -/
def getHash256 (ctx : SigCtx) (s : String) : String := ctx.sha256 s

/-- `getHmac512(str, key)`. -/
def getHmac512 (ctx : SigCtx) (s key : String) : String := ctx.hmac512 s key

/-- `hashParamNoId(path, ctime)`: signature for id-less endpoints. -/
def hashParamNoId (ctx : SigCtx) (path ctime : String) : String :=
  getHmac512 ctx
    (path ++ getHash256 ctx ("ctime=" ++ ctime ++ "version=" ++ VERSION))
    SECRET_KEY

/-- `hashParam(path, id, ctime)`: signature for id-bearing endpoints. -/
def hashParam (ctx : SigCtx) (path id ctime : String) : String :=
  getHmac512 ctx
    (path ++ getHash256 ctx ("ctime=" ++ ctime ++ "id=" ++ id ++ "version=" ++ VERSION))
    SECRET_KEY

/-- `hashParamHome(path, ctime)`: signature for the paginated home endpoint. -/
def hashParamHome (ctx : SigCtx) (path ctime : String) : String :=
  getHmac512 ctx
    (path ++ getHash256 ctx ("count=30ctime=" ++ ctime ++ "page=1version=" ++ VERSION))
    SECRET_KEY

/-! ## Credential (cookie) acquisition — `getCookie` -/

/-- Outcome of one acquisition GET against the upstream web root:
either a response carrying a `set-cookie` header list (an absent header is
the empty list) or a thrown transport error with its message. -/
inductive CookieOutcome where
  | resp (setCookies : List String)
  | err (msg : String)

/-- `!x` on a possibly-missing string: JS-falsy when absent or empty. -/
def jsFalsyOpt : Option String → Bool
  | none => true
  | some s => s = ""

/-- The cookie-header selection of `getCookie` on one response:
prefer index 1, fall back to index 0, fall back to a heuristic scan for a
long entry containing `=` or `;`. -/
def selectCookieHeader (cs : List String) : Option String :=
  if cs.length > 0 then
    let ch1 : Option String := if cs.length > 1 then cs[1]? else none
    let ch2 : Option String :=
      if jsFalsyOpt ch1 && cs.length > 0 then cs[0]? else ch1
    if jsFalsyOpt ch2 then
      cs.find? fun c => c ≠ "" && c.length > 10 && (c.data.contains '=' || c.data.contains ';')
    else ch2
  else none

/-- `lastError` message used when a response holds no usable cookie. -/
def noCookieMsg : String := "No valid cookie found in response headers"

/-- The terminal message after exhausting the three acquisition attempts. -/
def exhaustMsg (lastError : Option String) : String :=
  "Failed to get cookie after 3 attempts: " ++
    (match lastError with
     | none => "Unknown error"
     | some m => if m = "" then "Unknown error" else m)

/-- Result of a `getCookie` run: the returned credential or thrown message,
the final cached credential, the backoff sleeps performed (ms, in order)
and the number of acquisition GETs issued. -/
structure CookieRun where
  result : Except String String
  cookie : Option String
  sleeps : List Nat
  attemptsUsed : Nat
deriving Repr

/-- The retry loop of `getCookie`: `left` is the number of loop iterations
remaining (3 at entry), `attempt` the 1-based attempt counter, `env` gives
the outcome of each attempt.  Sleeps of `1000 * attempt` ms happen only in
the catch branch (thrown attempt) and only while `attempt < 3`. -/
def getCookieLoop (env : Nat → CookieOutcome) :
    Nat → Nat → Option String → CookieRun
  | 0, attempt, lastError =>
    ⟨.error (exhaustMsg lastError), none, [], attempt - 1⟩
  | left + 1, attempt, lastError =>
    match env attempt with
    | .resp cs =>
      match selectCookieHeader cs with
      | some c =>
        if jsTrim c ≠ "" then
          ⟨.ok (jsTrim c), some (jsTrim c), [], attempt⟩
        else
          getCookieLoop env left (attempt + 1) (some noCookieMsg)
      | none => getCookieLoop env left (attempt + 1) (some noCookieMsg)
    | .err m =>
      let r := getCookieLoop env left (attempt + 1) (some m)
      if attempt < 3 then { r with sleeps := 1000 * attempt :: r.sleeps } else r

/-- `getCookie()`: serve the cached credential if present, otherwise run the
three-attempt acquisition loop. -/
def getCookie (cookie0 : Option String) (env : Nat → CookieOutcome) : CookieRun :=
  match cookie0 with
  | some c => ⟨.ok c, some c, [], 0⟩
  | none => getCookieLoop env 3 1 none

/-! ## Request dispatcher — `requestZingMp3` -/

/-- Outcome of one API GET: a 2xx response with its decoded body, an axios
error carrying a response (non-2xx status), or a response-less transport
error (timeout, connection refused) with its message. -/
inductive HttpOutcome where
  | ok (body : JValue)
  | httpErr (status : Nat) (statusText : String) (body : JValue)
  | netErr (msg : String)

mutual
/-- `JSON.stringify` as used when formatting upstream error bodies
(string escaping beyond plain quoting is not needed by the protocol). -/
def jStringify : JValue → String
  | .null => "null"
  | .bool b => if b then "true" else "false"
  | .str s => "\"" ++ s ++ "\""
  | .num n => toString n
  | .arr xs => "[" ++ jStringifyArr xs ++ "]"
  | .obj fs => "\x7b" ++ jStringifyObj fs ++ "\x7d"

/-- Array elements of `jStringify`. -/
def jStringifyArr : List JValue → String
  | [] => ""
  | [x] => jStringify x
  | x :: y :: xs => jStringify x ++ "," ++ jStringifyArr (y :: xs)

/-- Object fields of `jStringify`. -/
def jStringifyObj : List (String × JValue) → String
  | [] => ""
  | [kv] => "\"" ++ kv.1 ++ "\":" ++ jStringify kv.2
  | kv :: kv2 :: fs => "\"" ++ kv.1 ++ "\":" ++ jStringify kv.2 ++ "," ++ jStringifyObj (kv2 :: fs)
end

/-- The message built in the catch branch for an axios error that carries a
response: status, status text and a 200-character prefix of the body. -/
def upstreamMsg (status : Nat) (statusText : String) (body : JValue) : String :=
  "ZingMp3 API request failed: " ++ toString status ++ " " ++ statusText ++
    " - " ++ strTake (jStringify body) 200

/-- An error thrown inside the `try` block of `requestZingMp3`. -/
inductive TryErr where
  | plain (msg : String)
  | axiosErr (status : Nat) (statusText : String) (body : JValue)

/-- The catch branch of `requestZingMp3`: wrap errors that carry a response,
rethrow errors that have a message, fall back to a stringified error. -/
def catchWrap : TryErr → String
  | .axiosErr s st b => upstreamMsg s st b
  | .plain m =>
    if m = "" then "ZingMp3 API request failed: Error" else m

/-- `data.msg || data.message || 'ZingMp3 API error: ' + data.err`. -/
def protocolMsg (body : JValue) : JValue :=
  jsOrJ (jGet body "msg")
    (jsOrJ (jGet body "message")
      (.str ("ZingMp3 API error: " ++ jTemplate (jGet body "err"))))

/-- The recognized authentication-class conditions:
`err === -115 || err === -113 || (msg && msg.includes('lỗi'))`. -/
def isAuthClassErr (body : JValue) : Bool :=
  isNum (jGet body "err") (-115) || isNum (jGet body "err") (-113) ||
    (match jGet body "msg" with
     | .str s => s ≠ "" && strIncludes s "lỗi"
     | _ => false)

/-- Result of a `requestZingMp3` run: the returned body or thrown message,
the final cached credential, the API GETs issued (path with full query set,
in order) and how many times the credential cache was invalidated. -/
structure DispatchResult where
  result : Except String JValue
  cookie : Option String
  requests : List (String × List (String × String))
  invalidations : Nat
deriving Repr

/-- `requestZingMp3(path, qs, ctime?)` as a state machine over explicit
environments: `cookie0` is the cached credential at entry, `cenv1`/`cenv2`
give the acquisition outcomes of the first and (if reached) second
`getCookie` run, `henv` the outcomes of the API GETs in issue order,
`ctimeNow`/`freshCtime` the values produced by `getCTIME()` at call time
and at the retry. -/
def requestZingMp3 (cookie0 : Option String) (cenv1 cenv2 : Nat → CookieOutcome)
    (henv : Nat → HttpOutcome) (ctimeNow freshCtime : String)
    (path : String) (qs : List (String × String)) (ctimeArg : Option String) :
    DispatchResult :=
  let cr1 := getCookie cookie0 cenv1
  match cr1.result with
  | .error m => ⟨.error (catchWrap (.plain m)), cr1.cookie, [], 0⟩
  | .ok _ =>
    -- const requestCTIME = ctime || this.getCTIME()
    let requestCTIME :=
      match ctimeArg with
      | some c => if c = "" then ctimeNow else c
      | none => ctimeNow
    -- const params = {...qs, ctime, version, apiKey}
    let params :=
      setKey (setKey (setKey qs "ctime" requestCTIME) "version" VERSION) "apiKey" API_KEY
    match henv 0 with
    | .netErr m =>
      ⟨.error (catchWrap (.plain m)), cr1.cookie, [(path, params)], 0⟩
    | .httpErr s st b =>
      ⟨.error (catchWrap (.axiosErr s st b)), cr1.cookie, [(path, params)], 0⟩
    | .ok data =>
      if hasErrField data then
        if !isNum (jGet data "err") 0 then
          if isAuthClassErr data then
            -- this.cookie = null; retry once with a fresh cookie and ctime
            let cr2 := getCookie none cenv2
            match cr2.result with
            | .error m =>
              ⟨.error (catchWrap (.plain m)), cr2.cookie, [(path, params)], 1⟩
            | .ok _ =>
              -- const retryParams = {...params, ctime: freshCTIME};
              -- the sig inside qs is NOT recomputed (`if (qs.sig) {}` is empty)
              let retryParams := setKey params "ctime" freshCtime
              match henv 1 with
              | .netErr m =>
                ⟨.error (catchWrap (.plain m)), cr2.cookie,
                  [(path, params), (path, retryParams)], 1⟩
              | .httpErr s st b =>
                ⟨.error (catchWrap (.axiosErr s st b)), cr2.cookie,
                  [(path, params), (path, retryParams)], 1⟩
              | .ok retryData =>
                if hasErrField retryData && !isNum (jGet retryData "err") 0 then
                  ⟨.error (catchWrap (.plain (jTemplate (protocolMsg retryData)))),
                    cr2.cookie, [(path, params), (path, retryParams)], 1⟩
                else
                  ⟨.ok retryData, cr2.cookie, [(path, params), (path, retryParams)], 1⟩
          else
            ⟨.error (catchWrap (.plain (jTemplate (protocolMsg data)))),
              cr1.cookie, [(path, params)], 0⟩
        else ⟨.ok data, cr1.cookie, [(path, params)], 0⟩
      else ⟨.ok data, cr1.cookie, [(path, params)], 0⟩

/-! ## Response normalizers -/

/-- The songs-list extraction of `searchSongs`: descend into `data`, accept
`data.songs` when it is an array, else `data` itself when it is an array,
else the raw response when it is an array, else the empty list. -/
def extractSongs (response : JValue) : List JValue :=
  let d := jGet response "data"
  if truthy d then
    match jGet d "songs" with
    | .arr xs => xs
    | _ =>
      match d with
      | .arr xs => xs
      | _ => []
  else
    match response with
    | .arr xs => xs
    | _ => []

/-- The callback of `song?.artists?.map((a) => a.name || a)`: property
access on a `null` element raises a TypeError. -/
def songArtistEntry : JValue → Except String JValue
  | .null => .error "Cannot read properties of null (reading 'name')"
  | a => pure (jsOrJ (jGet a "name") a)

/-- `Array.prototype.join(sep)`: `null`/`undefined` entries become the
empty string, other entries are string-coerced. -/
def jsJoin (xs : List JValue) (sep : String) : String :=
  String.intercalate sep (xs.map fun v =>
    match v with
    | .null => ""
    | v => jTemplate v)

/-- `song?.artists?.map((a) => a.name || a).join(", ")`: `undefined` when
`artists` is absent, the joined string for an array, a TypeError when
`artists` is some other non-null value (no `.map` method). -/
def songArtistsJoin (song : JValue) : Except String JValue :=
  match jGet song "artists" with
  | .null => pure .null
  | .arr xs => do
    let mapped ← xs.mapM songArtistEntry
    pure (.str (jsJoin mapped ", "))
  | _ => .error "song?.artists?.map is not a function"

/-- The mapped song record built by `searchSongs` (fields keep their JS
values; `.null` stands for `undefined`). -/
structure SongN where
  encodeId : JValue
  title : JValue
  artistsNames : JValue
  thumbnail : JValue
  duration : JValue
deriving Repr

/-- The per-item mapping of `searchSongs`: fallback chains for each field;
evaluating the artists chain can raise, which the enclosing `try` of
`searchSongs` converts into a thrown error. -/
def songMap (song : JValue) : Except String SongN := do
  let artistsNames ←
    if truthy (jGet song "artistsNames") then
      pure (jGet song "artistsNames")
    else do
      let j ← songArtistsJoin song
      pure (jsOrJ j (.str ""))
  pure
    { encodeId := jsOrJ (jGet song "encodeId") (jsOrJ (jGet song "id") (.str ""))
      title := jsOrJ (jGet song "title") (jsOrJ (jGet song "name") (.str ""))
      artistsNames := artistsNames
      thumbnail := jsOrJ (jGet song "thumbnail")
        (jsOrJ (jGet song "thumb") (jsOrJ (jGet song "thumbnailM") (.str "")))
      duration := if truthy (jGet song "duration") then jGet song "duration" else .null }

/-- The normalization part of `searchSongs` applied to the dispatcher body:
extract the songs list, map each item, keep items with truthy `encodeId`
and truthy `title`. -/
def searchSongsNormalize (response : JValue) : Except String (List SongN) := do
  let songs := extractSongs response
  let mapped ← songs.mapM songMap
  pure (mapped.filter fun s => truthy s.encodeId && truthy s.title)

/-- The per-entry retention decision of `fetchStreaming`: keep a string
value with an http(s) scheme, unwrap and keep an object value whose truthy
`url` field is a string with an http(s) scheme, drop everything else. -/
def streamEntry : JValue → Option String
  | .str s => if isHttpUrl s then some s else none
  | .obj fs =>
    let url := jGet (.obj fs) "url"
    if truthy url then
      match url with
      | .str u => if isHttpUrl u then some u else none
      | _ => none
    else none
  | .arr _ => none    -- typeof is 'object' but an array has no url field
  | _ => none

/-- One iteration of the `fetchStreaming` entry loop: assign the retained
URL under its quality key, or keep the accumulator unchanged. -/
def streamStep (acc : List (String × String)) (kv : String × JValue) :
    List (String × String) :=
  match streamEntry kv.2 with
  | some u => setKey acc kv.1 u
  | none => acc

/-- The normalization part of `fetchStreaming`: unwrap `data`, then walk the
entries of the object accumulating the retained URLs. -/
def fetchStreamingNormalize (response : JValue) : List (String × String) :=
  let data := jsOrJ (jGet response "data") response
  match data with
  | .obj fields => fields.foldl streamStep []
  | _ => []

/-- A zod `z.string().optional()` check (absent counts as valid). -/
def zOptStr : JValue → Bool
  | .null => true
  | .str _ => true
  | _ => false

/-- A zod `z.number().optional()` check. -/
def zOptNum : JValue → Bool
  | .null => true
  | .num _ => true
  | _ => false

/-- A zod `z.array(z.any()).optional()` check. -/
def zOptArr : JValue → Bool
  | .null => true
  | .arr _ => true
  | _ => false

/-- The lyric result record (`.null` stands for `undefined`). -/
structure LyricR where
  lyric : JValue
  sentences : JValue
deriving Repr

/-- The normalization part of `fetchLyrics`: unwrap `data`, validate against
the lyric schema, fall back to raw field probing when validation fails. -/
def fetchLyricsNormalize (response : JValue) : LyricR :=
  let lyricData := jsOrJ (jGet response "data") response
  match lyricData with
  | .obj _ =>
    if zOptStr (jGet lyricData "lyric") && zOptArr (jGet lyricData "sentences") then
      ⟨jGet lyricData "lyric", jGet lyricData "sentences"⟩
    else
      ⟨jGet lyricData "lyric", jGet lyricData "sentences"⟩
  | _ => ⟨jGet lyricData "lyric", jGet lyricData "sentences"⟩

/-- The artist result after zod validation. -/
structure ArtistR where
  name : String
  aliasF : Option String   -- `alias` (a reserved word in Lean)
  thumbnail : Option String
  totalFollow : Option Int
deriving Repr

/-- Read an optional string field out of a validated value. -/
def asOptStr : JValue → Option String
  | .str s => some s
  | _ => none

/-- Read an optional number field out of a validated value. -/
def asOptNum : JValue → Option Int
  | .num n => some n
  | _ => none

/-- The normalization part of `fetchArtist`: unwrap `data`, build the mapped
record with fallback chains (the queried name backstops `name`/`alias`),
validate with the artist schema, yield `null` when validation fails. -/
def fetchArtistNormalize (response : JValue) (nameArg : String) : Option ArtistR :=
  let artistData := jsOrJ (jGet response "data") response
  let name := jsOrJ (jGet artistData "name") (jsOrJ (jGet artistData "alias") (.str nameArg))
  let aliasF := jsOrJ (jGet artistData "alias") (jsOrJ (jGet artistData "name") (.str nameArg))
  let thumbnail := jsOrJ (jGet artistData "thumbnail")
    (jsOrJ (jGet artistData "thumb") (jGet artistData "thumbnailM"))
  let totalFollow := jsOrJ (jGet artistData "totalFollow") (jGet artistData "followers")
  match name with
  | .str n =>
    if zOptStr aliasF && zOptStr thumbnail && zOptNum totalFollow then
      some ⟨n, asOptStr aliasF, asOptStr thumbnail, asOptNum totalFollow⟩
    else none
  | _ => none

/-- The album result after zod validation. -/
structure AlbumR where
  encodeId : String
  title : String
  artistsNames : Option String
  thumbnail : Option String
deriving Repr

/-- `albumData?.artists?.map((a) => a.name).join(", ")`: `undefined` when
`artists` is absent, a TypeError (hence a `null` result through the catch
of `fetchAlbum`) otherwise when it is not an array or holds a null item. -/
def albumArtistsJoin (albumData : JValue) : Except String JValue :=
  match jGet albumData "artists" with
  | .null => pure .null
  | .arr xs => do
    let mapped ← xs.mapM fun a =>
      match a with
      | .null => Except.error "Cannot read properties of null (reading 'name')"
      | a => pure (jGet a "name")
    pure (.str (jsJoin mapped ", "))
  | _ => .error "albumData?.artists?.map is not a function"

/-- The normalization part of `fetchAlbum`: unwrap `data`, build the mapped
record (the queried id backstops `encodeId`; `title` has no backstop),
validate with the album schema; a validation failure or a thrown TypeError
yields `null` through the surrounding catch. -/
def fetchAlbumNormalize (response : JValue) (idArg : String) : Option AlbumR :=
  let albumData := jsOrJ (jGet response "data") response
  let encodeId := jsOrJ (jGet albumData "encodeId") (jsOrJ (jGet albumData "id") (.str idArg))
  let title := jsOrJ (jGet albumData "title") (jGet albumData "name")
  let artistsNames :=
    if truthy (jGet albumData "artistsNames") then
      Except.ok (jGet albumData "artistsNames")
    else albumArtistsJoin albumData
  let thumbnail := jsOrJ (jGet albumData "thumbnail")
    (jsOrJ (jGet albumData "thumb") (jGet albumData "thumbnailM"))
  match artistsNames with
  | .error _ => none
  | .ok artistsNames =>
    match encodeId, title with
    | .str e, .str t =>
      if zOptStr artistsNames && zOptStr thumbnail then
        some ⟨e, t, asOptStr artistsNames, asOptStr thumbnail⟩
      else none
    | _, _ => none

/-! ## Stream selector — `pickBestStream` (tool-registration layer) -/

/-- The preferred-quality loop of `pickBestStream`: return the first
preferred key whose looked-up value is truthy (present and non-empty). -/
def findPreferred (sources : List (String × String)) : List String → Option (String × String)
  | [] => none
  | q :: rest =>
    match sources.lookup q with
    | some url => if url = "" then findPreferred sources rest else some (q, url)
    | none => findPreferred sources rest

/-- `pickBestStream(streaming)`: preferred qualities in fixed order, then
the first key of the map (if that key is truthy), else `null`.  The map is
the entry list of `streaming.sources` in iteration order. -/
def pickBestStream (sources : List (String × String)) : Option (String × String) :=
  match findPreferred sources ["lossless", "320", "m4a", "128"] with
  | some r => some r
  | none =>
    match sources with
    | [] => none
    | (k, v) :: _ => if k = "" then none else some (k, v)

/-! ## The `searchSongs` operation of the ZingMp3 client -/

/-- `searchSongs(keyword)`: dispatch the signed search call and normalize
the body; any thrown error is rewrapped with a `Failed to search songs:`
prefix.  Returns the operation result together with the dispatch record. -/
def searchSongsOp (cookie0 : Option String) (cenv1 cenv2 : Nat → CookieOutcome)
    (henv : Nat → HttpOutcome) (ctimeNow freshCtime : String) (ctx : SigCtx)
    (keyword : String) : Except String (List SongN) × DispatchResult :=
  let r := requestZingMp3 cookie0 cenv1 cenv2 henv ctimeNow freshCtime
    "/api/v2/search/multi"
    [("q", keyword), ("sig", hashParamNoId ctx "/api/v2/search/multi" ctimeNow)]
    (some ctimeNow)
  match r.result with
  | .error m => (.error ("Failed to search songs: " ++ m), r)
  | .ok body =>
    match searchSongsNormalize body with
    | .error m => (.error ("Failed to search songs: " ++ m), r)
    | .ok l => (.ok l, r)

/-! ## Spec-side comparison definitions (for refinement claims) -/

/-- Written from the amended wording of the stream-selector claim: the first
preferred key whose value is present and non-empty wins; otherwise the first
entry of the map, provided its key is non-empty; otherwise `null`. -/
def pickBestSpec (sources : List (String × String)) : Option (String × String) :=
  match ["lossless", "320", "m4a", "128"].find? (fun q => ((sources.lookup q).getD "") ≠ "") with
  | some q => some (q, (sources.lookup q).getD "")
  | none =>
    match sources with
    | [] => none
    | (k, v) :: _ => if k = "" then none else some (k, v)

/-- Written from the wording of the streaming-retention claim: keep a value
that is a string beginning with `http://` or `https://`, or an object whose
`url` field is such a string, unwrapping the object to that string. -/
def specStreamKeep : JValue → Option String
  | .str s => if isHttpUrl s then some s else none
  | .obj fs =>
    match fs.lookup "url" with
    | some (.str u) => if isHttpUrl u then some u else none
    | _ => none
  | _ => none

/-! ## Helper lemmas -/

/-- A truthy value is neither the empty string nor null. -/
theorem truthy_ne_blank {v : JValue} (h : truthy v = true) :
    v ≠ .str "" ∧ v ≠ .null := by
  constructor <;> rintro rfl <;> simp [truthy] at h

/-- The preferred-quality loop agrees with a `find?` over the preferred
keys, reading present-and-non-empty through `lookup`/`getD`. -/
theorem findPreferred_eq (sources : List (String × String)) :
    ∀ l, findPreferred sources l =
      (l.find? fun q => ((sources.lookup q).getD "") ≠ "").map
        fun q => (q, (sources.lookup q).getD "") := by
  intro l
  induction l with
  | nil => rfl
  | cons q rest ih =>
    simp only [findPreferred, List.find?]
    cases h : sources.lookup q with
    | none => simp [h, ih]
    | some url =>
      by_cases hu : url = "" <;> simp [h, hu, ih]

/-! ## Claim theorems -/

/-- C3 (counterexample): `pickBestStream` skips a present preferred key
whose value is the empty string, and returns `null` on a non-empty map
whose first key is the empty string — so it does not return the first
present preferred key, and `null` is not returned only on the empty map,
contrary to the claim. -/
theorem pickBestStream_claim_cex :
    pickBestStream [("lossless", ""), ("320", "B")] = some ("320", "B") ∧
    pickBestStream [("lossless", ""), ("320", "B")] ≠ some ("lossless", "") ∧
    pickBestStream [("", "http://x")] = none ∧
    ([("", "http://x")] : List (String × String)) ≠ [] := by
  refine ⟨rfl, ?_, rfl, ?_⟩ <;> decide

/-- C3 (amended): `pickBestStream` returns the entry of the first key among
lossless, 320, m4a, 128 whose value is present and non-empty; when no
preferred key has a non-empty value it returns the first entry of the map
provided the first key is non-empty, and `null` otherwise (in particular
`null` on the empty map); the claim's examples hold for non-empty URLs. -/
theorem pickBestStream_amended :
    (∀ sources, pickBestStream sources = pickBestSpec sources) ∧
    (∀ A B : String, A ≠ "" →
      pickBestStream [("lossless", A), ("320", B)] = some ("lossless", A)) ∧
    (∀ C : String, C ≠ "" →
      pickBestStream [("128", C)] = some ("128", C)) ∧
    pickBestStream [] = none := by
  refine ⟨?_, ?_, ?_, rfl⟩
  · intro sources
    unfold pickBestStream pickBestSpec
    rw [findPreferred_eq]
    cases (["lossless", "320", "m4a", "128"].find? fun q =>
        ((sources.lookup q).getD "") ≠ "") <;> simp
  · intro A B hA
    simp [pickBestStream, findPreferred, List.lookup, hA]
  · intro C hC
    simp [pickBestStream, findPreferred, List.lookup, hC]

/-- C3 (witness): the amended theorem applied at the claim's example maps
with concrete non-empty URLs. -/
theorem pickBestStream_amended_witness :
    pickBestStream [("lossless", "http://a"), ("320", "http://b")] =
      some ("lossless", "http://a") ∧
    pickBestStream [("128", "http://c")] = some ("128", "http://c") :=
  ⟨pickBestStream_amended.2.1 "http://a" "http://b" (by decide),
   pickBestStream_amended.2.2.1 "http://c" (by decide)⟩

/-- C4: the normalization of each result kind never raises on an empty or
null payload: search and streaming yield empty collections, the lyric
record has null/undefined fields, the artist record degrades to the queried
name with undefined optional fields, and the album result is `null`. -/
theorem normalize_null_payload_degrades :
    searchSongsNormalize .null = .ok [] ∧
    searchSongsNormalize (.obj []) = .ok [] ∧
    fetchStreamingNormalize .null = [] ∧
    fetchStreamingNormalize (.obj []) = [] ∧
    fetchLyricsNormalize .null = ⟨.null, .null⟩ ∧
    fetchLyricsNormalize (.obj []) = ⟨.null, .null⟩ ∧
    (∀ nameArg, fetchArtistNormalize .null nameArg =
      some ⟨nameArg, some nameArg, none, none⟩) ∧
    (∀ idArg, fetchAlbumNormalize .null idArg = none) := by
  refine ⟨rfl, rfl, rfl, rfl, rfl, rfl, ?_, ?_⟩ <;> intro a <;> rfl

/-- C6: the signing functions are deterministic and pure — for any digest
primitives, two invocations on componentwise-equal inputs return the
identical signature token. -/
theorem sign_deterministic (ctx : SigCtx) (p p2 i i2 c c2 : String)
    (hp : p = p2) (hi : i = i2) (hc : c = c2) :
    hashParamNoId ctx p c = hashParamNoId ctx p2 c2 ∧
    hashParam ctx p i c = hashParam ctx p2 i2 c2 := by
  subst hp; subst hi; subst hc; exact ⟨rfl, rfl⟩

/-- C6 (witness): determinism at a concrete digest context and inputs. -/
theorem sign_deterministic_witness :
    hashParamNoId ⟨id, fun m k => m ++ k⟩ "/api/v2/search/multi" "100" =
      hashParamNoId ⟨id, fun m k => m ++ k⟩ "/api/v2/search/multi" "100" ∧
    hashParam ⟨id, fun m k => m ++ k⟩ "/api/v2/search/multi" "X" "100" =
      hashParam ⟨id, fun m k => m ++ k⟩ "/api/v2/search/multi" "X" "100" :=
  sign_deterministic ⟨id, fun m k => m ++ k⟩ "/api/v2/search/multi"
    "/api/v2/search/multi" "X" "X" "100" "100" rfl rfl rfl

/-- C1 (code bug, evaluated at the failing input): on an authentication
error (err -115) the retried request carries the fresh ctime `"200"` but
the signature computed from the original ctime `"100"` — which differs from
the signature a fresh timestamp would produce.  The source even notes
`Recalculate sig if needed` in the retry branch without doing so. -/
theorem retry_reuses_stale_signature :
    (requestZingMp3 (some "ck") (fun _ => .resp [])
        (fun _ => .resp ["a=b", "zmp3sess=abcdef"])
        (fun n => if n = 0 then .ok (.obj [("err", .num (-115)), ("msg", .str "auth")])
          else .ok (.obj [("err", .num 0), ("data", .null)]))
        "100" "200" "/api/v2/song/get/streaming"
        [("id", "X"),
         ("sig", hashParam ⟨fun s => "H(" ++ s ++ ")", fun m k => "M(" ++ m ++ "|" ++ k ++ ")"⟩
            "/api/v2/song/get/streaming" "X" "100")]
        (some "100")).requests.length = 2 ∧
    ((requestZingMp3 (some "ck") (fun _ => .resp [])
        (fun _ => .resp ["a=b", "zmp3sess=abcdef"])
        (fun n => if n = 0 then .ok (.obj [("err", .num (-115)), ("msg", .str "auth")])
          else .ok (.obj [("err", .num 0), ("data", .null)]))
        "100" "200" "/api/v2/song/get/streaming"
        [("id", "X"),
         ("sig", hashParam ⟨fun s => "H(" ++ s ++ ")", fun m k => "M(" ++ m ++ "|" ++ k ++ ")"⟩
            "/api/v2/song/get/streaming" "X" "100")]
        (some "100")).requests.getD 1 ("", [])).2.lookup "sig" =
      some (hashParam ⟨fun s => "H(" ++ s ++ ")", fun m k => "M(" ++ m ++ "|" ++ k ++ ")"⟩
        "/api/v2/song/get/streaming" "X" "100") ∧
    ((requestZingMp3 (some "ck") (fun _ => .resp [])
        (fun _ => .resp ["a=b", "zmp3sess=abcdef"])
        (fun n => if n = 0 then .ok (.obj [("err", .num (-115)), ("msg", .str "auth")])
          else .ok (.obj [("err", .num 0), ("data", .null)]))
        "100" "200" "/api/v2/song/get/streaming"
        [("id", "X"),
         ("sig", hashParam ⟨fun s => "H(" ++ s ++ ")", fun m k => "M(" ++ m ++ "|" ++ k ++ ")"⟩
            "/api/v2/song/get/streaming" "X" "100")]
        (some "100")).requests.getD 1 ("", [])).2.lookup "ctime" = some "200" ∧
    hashParam ⟨fun s => "H(" ++ s ++ ")", fun m k => "M(" ++ m ++ "|" ++ k ++ ")"⟩
        "/api/v2/song/get/streaming" "X" "200" ≠
      hashParam ⟨fun s => "H(" ++ s ++ ")", fun m k => "M(" ++ m ++ "|" ++ k ++ ")"⟩
        "/api/v2/song/get/streaming" "X" "100" := by
  decide

/-- C9 (code bug, evaluated at the failing input): the live ZingMp3 client
issues the search with a blank keyword — one upstream GET carrying `q=""`
and a normal (empty) result, with no validation error. -/
theorem blank_keyword_contacts_upstream :
    (searchSongsOp (some "ck") (fun _ => .resp []) (fun _ => .resp [])
        (fun _ => .ok (.obj [("err", .num 0), ("data", .obj [("songs", .arr [])])]))
        "100" "200" ⟨fun s => "H(" ++ s ++ ")", fun m k => "M(" ++ m ++ "|" ++ k ++ ")"⟩
        "").2.requests.length = 1 ∧
    ((searchSongsOp (some "ck") (fun _ => .resp []) (fun _ => .resp [])
        (fun _ => .ok (.obj [("err", .num 0), ("data", .obj [("songs", .arr [])])]))
        "100" "200" ⟨fun s => "H(" ++ s ++ ")", fun m k => "M(" ++ m ++ "|" ++ k ++ ")"⟩
        "").2.requests.getD 0 ("", [])).2.lookup "q" = some "" ∧
    (searchSongsOp (some "ck") (fun _ => .resp []) (fun _ => .resp [])
        (fun _ => .ok (.obj [("err", .num 0), ("data", .obj [("songs", .arr [])])]))
        "100" "200" ⟨fun s => "H(" ++ s ++ ")", fun m k => "M(" ++ m ++ "|" ++ k ++ ")"⟩
        "").1 = .ok [] :=
  ⟨rfl, rfl, rfl⟩

/-- C10: every song surviving `searchSongs` normalization has a truthy
(non-blank, non-null) `encodeId` and `title`: the filter drops any item
lacking either. -/
theorem search_result_ids_titles_nonblank (response : JValue) (l : List SongN)
    (h : searchSongsNormalize response = .ok l) :
    ∀ s ∈ l, truthy s.encodeId = true ∧ truthy s.title = true ∧
      s.encodeId ≠ .str "" ∧ s.title ≠ .str "" ∧
      s.encodeId ≠ .null ∧ s.title ≠ .null := by
  intro s hs
  simp only [searchSongsNormalize] at h
  cases hm : (extractSongs response).mapM songMap with
  | error e => rw [hm] at h; cases h
  | ok mapped =>
    rw [hm] at h
    simp only [bind, Except.bind, pure, Except.pure, Except.ok.injEq] at h
    subst h
    have hmem := List.mem_filter.1 hs
    have hp := hmem.2
    simp only [Bool.and_eq_true] at hp
    obtain ⟨h1, h2⟩ := hp
    exact ⟨h1, h2, (truthy_ne_blank h1).1, (truthy_ne_blank h2).1,
      (truthy_ne_blank h1).2, (truthy_ne_blank h2).2⟩

/-- C10 (witness): the invariant applied to a concrete payload in which a
blank-title item is dropped and a valid item survives. -/
theorem search_result_ids_titles_nonblank_witness :
    searchSongsNormalize (.obj [("data", .obj [("songs", .arr
        [.obj [("encodeId", .str "A"), ("title", .str "T")],
         .obj [("encodeId", .str "B"), ("title", .str "")]])])]) =
      .ok [⟨.str "A", .str "T", .str "", .str "", .null⟩] ∧
    (truthy (JValue.str "A") = true ∧ truthy (JValue.str "T") = true ∧
      JValue.str "A" ≠ .str "" ∧ JValue.str "T" ≠ .str "" ∧
      JValue.str "A" ≠ .null ∧ JValue.str "T" ≠ .null) :=
  ⟨rfl, search_result_ids_titles_nonblank
    (.obj [("data", .obj [("songs", .arr
        [.obj [("encodeId", .str "A"), ("title", .str "T")],
         .obj [("encodeId", .str "B"), ("title", .str "")]])])])
    [⟨.str "A", .str "T", .str "", .str "", .null⟩] rfl
    ⟨.str "A", .str "T", .str "", .str "", .null⟩ (List.mem_singleton.mpr rfl)⟩

/-- C8: a transport-level failure of the first API GET — a response-less
error (timeout, connection refused) or an axios error carrying a non-2xx
response — surfaces as the corresponding thrown error, leaves the cached
credential untouched, performs no invalidation and issues no retry. -/
theorem transport_failure_frame (ck : String) (cenv1 cenv2 : Nat → CookieOutcome)
    (henv : Nat → HttpOutcome) (ctimeNow freshCtime path : String)
    (qs : List (String × String)) (ctimeArg : Option String)
    (m st : String) (s : Nat) (b : JValue) (hm : m ≠ "") :
    (henv 0 = .netErr m →
      requestZingMp3 (some ck) cenv1 cenv2 henv ctimeNow freshCtime path qs ctimeArg =
        ⟨.error m, some ck,
          [(path, setKey (setKey (setKey qs "ctime"
              (match ctimeArg with
               | some c => if c = "" then ctimeNow else c
               | none => ctimeNow)) "version" VERSION) "apiKey" API_KEY)], 0⟩) ∧
    (henv 0 = .httpErr s st b →
      requestZingMp3 (some ck) cenv1 cenv2 henv ctimeNow freshCtime path qs ctimeArg =
        ⟨.error (upstreamMsg s st b), some ck,
          [(path, setKey (setKey (setKey qs "ctime"
              (match ctimeArg with
               | some c => if c = "" then ctimeNow else c
               | none => ctimeNow)) "version" VERSION) "apiKey" API_KEY)], 0⟩) := by
  constructor <;> intro h0 <;>
    simp [requestZingMp3, getCookie, h0, catchWrap, hm]

/-- C8 (witness): a concrete timed-out call with a cached credential —
the error surfaces, the credential survives, one GET and no retry. -/
theorem transport_failure_frame_witness :
    requestZingMp3 (some "ck") (fun _ => .resp []) (fun _ => .resp [])
        (fun _ => .netErr "timeout of 30000ms exceeded") "100" "200"
        "/api/v2/search/multi" [("q", "x")] none =
      ⟨.error "timeout of 30000ms exceeded", some "ck",
        [("/api/v2/search/multi",
          [("q", "x"), ("ctime", "100"), ("version", "1.6.34"),
           ("apiKey", "88265e23d4284f25963e6eedac8fbfa3")])], 0⟩ :=
  (transport_failure_frame "ck" (fun _ => .resp []) (fun _ => .resp [])
    (fun _ => .netErr "timeout of 30000ms exceeded") "100" "200"
    "/api/v2/search/multi" [("q", "x")] none
    "timeout of 30000ms exceeded" "" 0 .null (by decide)).1 rfl

/-- The acquisition loop issues at most `left` further GETs. -/
theorem getCookieLoop_attempts_le (env : Nat → CookieOutcome) :
    ∀ left attempt le, (getCookieLoop env left attempt le).attemptsUsed ≤
      attempt - 1 + left := by
  intro left
  induction left with
  | zero => intro attempt le; simp [getCookieLoop]
  | succ n ih =>
    intro attempt le
    simp only [getCookieLoop]
    split
    · split
      · split
        · show attempt ≤ attempt - 1 + (n + 1)
          omega
        · have := ih (attempt + 1) (some noCookieMsg)
          omega
      · have := ih (attempt + 1) (some noCookieMsg)
        omega
    · split
      · rename_i x m heq h3
        show (getCookieLoop env n (attempt + 1) (some m)).attemptsUsed ≤ attempt - 1 + (n + 1)
        have := ih (attempt + 1) (some m)
        omega
      · rename_i x m heq h3
        have := ih (attempt + 1) (some m)
        omega

/-- C7 (counterexample): three upstream responses that each lack a usable
`set-cookie` header exhaust the three attempts with NO backoff sleeps at
all — the claimed 1s/2s backoff happens only when an attempt throws. -/
theorem getCookie_no_sleep_on_cookieless_response :
    (getCookie none (fun _ => .resp [])).sleeps = [] ∧
    (getCookie none (fun _ => .resp [])).sleeps ≠ [1000, 2000] ∧
    (getCookie none (fun _ => .resp [])).attemptsUsed = 3 ∧
    (getCookie none (fun _ => .resp [])).result =
      .error (exhaustMsg (some noCookieMsg)) := by
  refine ⟨rfl, ?_, rfl, rfl⟩
  decide

/-- C7 (amended): acquisition issues at most 3 GETs; attempts that throw
a transport error back off linearly (1s after the first, 2s after the
second) while attempts that return without a usable session header are
retried immediately with no sleep; after the third failure the run ends
with the exhaustion error; an attempt whose response yields a well-formed
header returns the trimmed credential and caches it. -/
theorem getCookie_amended :
    (∀ cookie0 env, (getCookie cookie0 env).attemptsUsed ≤ 3) ∧
    (∀ e1 e2 e3, getCookie none
        (fun k => if k = 1 then .err e1 else if k = 2 then .err e2 else .err e3) =
      ⟨.error (exhaustMsg (some e3)), none, [1000, 2000], 3⟩) ∧
    (∀ (env : Nat → CookieOutcome) cs c, selectCookieHeader cs = some c → jsTrim c ≠ "" →
      getCookie none (fun k => if k = 1 then .resp cs else env k) =
        ⟨.ok (jsTrim c), some (jsTrim c), [], 1⟩) ∧
    (∀ (env : Nat → CookieOutcome) cs c e1, selectCookieHeader cs = some c → jsTrim c ≠ "" →
      getCookie none (fun k => if k = 1 then .err e1 else
        if k = 2 then .resp cs else env k) =
        ⟨.ok (jsTrim c), some (jsTrim c), [1000], 2⟩) := by
  refine ⟨?_, ?_, ?_, ?_⟩
  · intro cookie0 env
    cases cookie0 with
    | some c => simp [getCookie]
    | none =>
      have := getCookieLoop_attempts_le env 3 1 none
      simpa [getCookie] using this
  · intro e1 e2 e3
    rfl
  · intro env cs c hsel htrim
    simp [getCookie, getCookieLoop, hsel, htrim]
  · intro env cs c e1 hsel htrim
    simp [getCookie, getCookieLoop, hsel, htrim]

/-- A key absent from the association list looks up to nothing. -/
theorem lookup_eq_none_of_not_mem {k : String} :
    ∀ {ps : List (String × String)}, k ∉ ps.map Prod.fst → ps.lookup k = none := by
  intro ps
  induction ps with
  | nil => intro _; rfl
  | cons p rest ih =>
    intro h
    simp only [List.map_cons, List.mem_cons] at h
    push_neg at h
    obtain ⟨h1, h2⟩ := h
    simp only [List.lookup]
    rw [show (k == p.1) = false from beq_eq_false_iff_ne.mpr h1]
    exact ih h2

/-- Assigning a fresh key appends the pair. -/
theorem setKey_not_mem {ps : List (String × String)} {k v : String}
    (h : k ∉ ps.map Prod.fst) : setKey ps k v = ps ++ [(k, v)] := by
  unfold setKey
  rw [lookup_eq_none_of_not_mem h]
  simp

/-- With pairwise-distinct keys the entry loop of `fetchStreaming` is a
`filterMap` over the entries. -/
theorem streamFold_append :
    ∀ (fields : List (String × JValue)) (acc : List (String × String)),
      (fields.map Prod.fst).Nodup →
      (∀ k, k ∈ acc.map Prod.fst → k ∉ fields.map Prod.fst) →
      fields.foldl streamStep acc =
        acc ++ fields.filterMap (fun kv => (streamEntry kv.2).map fun u => (kv.1, u)) := by
  intro fields
  induction fields with
  | nil => intro acc _ _; simp
  | cons kv rest ih =>
    intro acc hnd hdisj
    simp only [List.map_cons, List.nodup_cons] at hnd
    obtain ⟨hhead, hrest⟩ := hnd
    have hdisj2 : ∀ k, k ∈ acc.map Prod.fst → k ∉ rest.map Prod.fst := by
      intro k hk
      have := hdisj k hk
      simp only [List.map_cons, List.mem_cons] at this
      push_neg at this
      exact this.2
    simp only [List.foldl_cons, List.filterMap_cons]
    cases hs : streamEntry kv.2 with
    | none =>
      simp only [streamStep, hs, Option.map_none']
      exact ih acc hrest hdisj2
    | some u =>
      have hfresh : kv.1 ∉ acc.map Prod.fst := by
        intro hmem
        have := hdisj kv.1 hmem
        simp at this
      have hdisj3 : ∀ k, k ∈ (acc ++ [(kv.1, u)]).map Prod.fst → k ∉ rest.map Prod.fst := by
        intro k hk
        simp only [List.map_append, List.mem_append] at hk
        rcases hk with hk | hk
        · exact hdisj2 k hk
        · simp only [List.map_cons, List.map_nil, List.mem_singleton] at hk
          subst hk
          exact hhead
      simp only [streamStep, hs, Option.map_some']
      rw [setKey_not_mem hfresh, ih (acc ++ [(kv.1, u)]) hrest hdisj3]
      simp

/-- The per-entry retention decision of the code coincides with the
claim's wording. -/
theorem streamEntry_eq_spec : ∀ v, streamEntry v = specStreamKeep v := by
  intro v
  cases v with
  | null => rfl
  | bool b => rfl
  | str s => rfl
  | num n => rfl
  | arr xs => rfl
  | obj fs =>
    simp only [streamEntry, specStreamKeep, jGet]
    cases h : fs.lookup "url" with
    | none => simp [truthy]
    | some u =>
      cases u with
      | str s =>
        by_cases hs : s = ""
        · subst hs
          simp [truthy, isHttpUrl]
        · simp [truthy, hs]
      | null => simp [truthy]
      | bool b => cases b <;> simp [truthy]
      | num n => by_cases hn : n = 0 <;> simp [truthy, hn]
      | arr xs => simp [truthy]
      | obj gs => simp [truthy]

/-- On an un-enveloped streaming map the normalization is the entry fold. -/
theorem fetchStreamingNormalize_as_fold (fields : List (String × JValue))
    (hnodata : truthy (jGet (.obj fields) "data") = false) :
    fetchStreamingNormalize (.obj fields) = fields.foldl streamStep [] := by
  unfold fetchStreamingNormalize
  simp only [jsOrJ, hnodata, if_false]
  rfl

/-- C5: on a streaming map with pairwise-distinct quality keys (and no
`data` envelope to unwrap) the normalization retains exactly the entries
whose value is an http(s)-URL string, or an object unwrapped to its
http(s)-URL string `url` field, dropping every other entry; the claim's
concrete example normalizes as stated. -/
theorem streaming_normalize_retains_exactly (fields : List (String × JValue))
    (hnd : (fields.map Prod.fst).Nodup)
    (hnodata : truthy (jGet (.obj fields) "data") = false) :
    fetchStreamingNormalize (.obj fields) =
      fields.filterMap (fun kv => (specStreamKeep kv.2).map fun u => (kv.1, u)) ∧
    fetchStreamingNormalize (.obj [("320", .str "https://x/a.mp3"),
        ("m4a", .obj [("url", .str "https://x/b.m4a")]),
        ("bogus", .str "not-a-url")]) =
      [("320", "https://x/a.mp3"), ("m4a", "https://x/b.m4a")] := by
  constructor
  · rw [fetchStreamingNormalize_as_fold fields hnodata,
      streamFold_append fields [] hnd (by intro k hk; simp at hk)]
    simp only [List.nil_append, streamEntry_eq_spec]
  · rfl

/-- C5 (witness): the retention theorem applied to the claim's example. -/
theorem streaming_normalize_retains_exactly_witness :
    fetchStreamingNormalize (.obj [("320", .str "https://x/a.mp3"),
        ("m4a", .obj [("url", .str "https://x/b.m4a")]),
        ("bogus", .str "not-a-url")]) =
      [("320", .str "https://x/a.mp3"),
        ("m4a", .obj [("url", .str "https://x/b.m4a")]),
        ("bogus", .str "not-a-url")].filterMap
          (fun kv => (specStreamKeep kv.2).map fun u => (kv.1, u)) :=
  (streaming_normalize_retains_exactly
    [("320", .str "https://x/a.mp3"),
     ("m4a", .obj [("url", .str "https://x/b.m4a")]),
     ("bogus", .str "not-a-url")] (by decide) (by decide)).1

/-- C7 (witness): the amended theorem at concrete environments — a
valid second header on the first attempt, and after one thrown attempt. -/
theorem getCookie_amended_witness :
    getCookie none (fun k => if k = 1 then .resp ["a=b", "zmp3sess=abcdef"]
        else (fun _ => CookieOutcome.err "x") k) =
      ⟨.ok (jsTrim "zmp3sess=abcdef"), some (jsTrim "zmp3sess=abcdef"), [], 1⟩ :=
  getCookie_amended.2.2.1 (fun _ => .err "x") ["a=b", "zmp3sess=abcdef"]
    "zmp3sess=abcdef" (by decide) (by decide)

/-- C2: for a first response carrying a non-zero `err`: an
authentication-class code (-115, -113, or a `msg` containing the localized
phrase) invalidates the credential cache exactly once and issues exactly
one retry, and a non-zero `err` on the retry raises the upstream
message/code error; any other non-zero `err` raises that error immediately
with no retry, no invalidation, and an untouched credential cache. -/
theorem err_code_retry_policy (cookie0 : Option String)
    (cenv1 cenv2 : Nat → CookieOutcome) (henv : Nat → HttpOutcome)
    (ctimeNow freshCtime path : String) (qs : List (String × String))
    (ctimeArg : Option String) (body : JValue) (c1 : String)
    (r : DispatchResult)
    (hr : r = requestZingMp3 cookie0 cenv1 cenv2 henv ctimeNow freshCtime path qs ctimeArg)
    (h1 : (getCookie cookie0 cenv1).result = .ok c1)
    (hb : henv 0 = .ok body)
    (he : hasErrField body = true)
    (hnz : isNum (jGet body "err") 0 = false) :
    (∀ c2, isAuthClassErr body = true → (getCookie none cenv2).result = .ok c2 →
      r.invalidations = 1 ∧ r.requests.length = 2 ∧
      (∀ retryBody, henv 1 = .ok retryBody →
        ((hasErrField retryBody && !isNum (jGet retryBody "err") 0) = true →
          r.result = .error (catchWrap (.plain (jTemplate (protocolMsg retryBody))))) ∧
        ((hasErrField retryBody && !isNum (jGet retryBody "err") 0) = false →
          r.result = .ok retryBody))) ∧
    (isAuthClassErr body = false →
      r.invalidations = 0 ∧ r.requests.length = 1 ∧
      r.result = .error (catchWrap (.plain (jTemplate (protocolMsg body)))) ∧
      r.cookie = (getCookie cookie0 cenv1).cookie) := by
  subst hr
  constructor
  · intro c2 hauth hc2
    refine ⟨?_, ?_, ?_⟩
    · simp only [requestZingMp3, h1, hb, he, hnz, hauth, hc2]
      cases hh : henv 1 with
      | ok retryBody =>
        by_cases hrb : (hasErrField retryBody && !isNum (jGet retryBody "err") 0) = true <;>
          simp [hrb]
      | httpErr s st b => simp
      | netErr m => simp
    · simp only [requestZingMp3, h1, hb, he, hnz, hauth, hc2]
      cases hh : henv 1 with
      | ok retryBody =>
        by_cases hrb : (hasErrField retryBody && !isNum (jGet retryBody "err") 0) = true <;>
          simp [hrb]
      | httpErr s st b => simp
      | netErr m => simp
    · intro retryBody hh
      constructor <;> intro hrb <;>
        simp only [requestZingMp3, h1, hb, he, hnz, hauth, hc2, hh, hrb] <;> simp [hrb]
  · intro hauth
    refine ⟨?_, ?_, ?_, ?_⟩ <;>
      simp only [requestZingMp3, h1, hb, he, hnz, hauth] <;> simp

/-- C2 (witness): a concrete auth-error run — one invalidation, one retry,
and the retry's non-zero `err` surfaces as the upstream message. -/
theorem err_code_retry_policy_witness :
    (requestZingMp3 (some "ck") (fun _ => .resp [])
        (fun _ => .resp ["a=b", "zmp3sess=abcdef"])
        (fun n => if n = 0 then .ok (.obj [("err", .num (-115)), ("msg", .str "auth")])
          else .ok (.obj [("err", .num (-110)), ("msg", .str "still bad")]))
        "100" "200" "/api/v2/search/multi" [("q", "x")] none).invalidations = 1 ∧
    (requestZingMp3 (some "ck") (fun _ => .resp [])
        (fun _ => .resp ["a=b", "zmp3sess=abcdef"])
        (fun n => if n = 0 then .ok (.obj [("err", .num (-115)), ("msg", .str "auth")])
          else .ok (.obj [("err", .num (-110)), ("msg", .str "still bad")]))
        "100" "200" "/api/v2/search/multi" [("q", "x")] none).requests.length = 2 ∧
    (requestZingMp3 (some "ck") (fun _ => .resp [])
        (fun _ => .resp ["a=b", "zmp3sess=abcdef"])
        (fun n => if n = 0 then .ok (.obj [("err", .num (-115)), ("msg", .str "auth")])
          else .ok (.obj [("err", .num (-110)), ("msg", .str "still bad")]))
        "100" "200" "/api/v2/search/multi" [("q", "x")] none).result =
      .error (catchWrap (.plain (jTemplate (protocolMsg
        (.obj [("err", .num (-110)), ("msg", .str "still bad")]))))) := by
  have h := err_code_retry_policy (some "ck") (fun _ => .resp [])
    (fun _ => .resp ["a=b", "zmp3sess=abcdef"])
    (fun n => if n = 0 then .ok (.obj [("err", .num (-115)), ("msg", .str "auth")])
      else .ok (.obj [("err", .num (-110)), ("msg", .str "still bad")]))
    "100" "200" "/api/v2/search/multi" [("q", "x")] none
    (.obj [("err", .num (-115)), ("msg", .str "auth")]) "ck" _ rfl rfl rfl rfl rfl
  obtain ⟨ha, _⟩ := h
  obtain ⟨hi, hl, hres⟩ := ha "zmp3sess=abcdef" rfl rfl
  exact ⟨hi, hl, (hres (.obj [("err", .num (-110)), ("msg", .str "still bad")]) rfl).1 rfl⟩

end Mp3Mcp
